import Mathlib

/-!
Shallow embedding of `src/adUVCApp/src/ADUVC.cpp` (EPICS areaDetector driver
for UVC cameras) and proofs about its connection lifecycle, acquisition
state machine, duration policy and frame callback.

Hardware calls (libuvc) are modelled against a mock hardware layer: each
embedded driver function takes the success/failure outcome of every
fallible hardware step as a Boolean argument and returns the ordered trace
of calls it makes together with the resulting driver-visible state.
Integer parameters of the areaDetector parameter table are modelled as a
finite record of `Int` fields; parameter indices are distinct `Nat` codes.
-/

/-- Parameter index for the ADAcquire parameter (base areaDetector). -/
def ADAcquire : Nat := 0

/-- Parameter index for the ADStatus parameter (base areaDetector). -/
def ADStatus : Nat := 1

/-- Parameter index for the ADNumImages parameter (base areaDetector). -/
def ADNumImages : Nat := 2

/-- Parameter index for the ADNumImagesCounter parameter (base areaDetector). -/
def ADNumImagesCounter : Nat := 3

/-- Parameter index for the NDDataType parameter (base areaDetector). -/
def NDDataType : Nat := 4

/-- First driver-specific parameter index; base-class writes are forwarded
only for function codes below this (line 269). -/
def ADUVC_FIRST_PARAM : Nat := 100

/-- Parameter index for the ADUVC_OperatingMode parameter. -/
def ADUVC_OperatingMode : Nat := 100

/-- Parameter index for the ADUVC_Framerate parameter (line 301). -/
def ADUVC_Framerate : Nat := 101

/-- The areaDetector idle detector status value, written by acquireStop
(line 170). -/
def ADStatusIdle : Int := 0

/-- The asyn success status returned by parameter writes. -/
def asynSuccess : Int := 0

/-- The integer parameter table of the driver: the fields read or written by
the embedded functions of ADUVC.cpp. -/
structure ParamTable where
  adAcquire : Int
  adStatus : Int
  adNumImages : Int
  adNumImagesCounter : Int
  uvcOperatingMode : Int
  uvcFramerate : Int
deriving DecidableEq, Repr

/-- setIntegerParam: stores `value` at parameter index `function`, leaving
every other table entry unchanged (asyn parameter library semantics used at
lines 138, 143, 147, 170, 171, 256). -/
def setIntegerParam (p : ParamTable) (function : Nat) (value : Int) : ParamTable :=
  if function = ADAcquire then { p with adAcquire := value }
  else if function = ADStatus then { p with adStatus := value }
  else if function = ADNumImages then { p with adNumImages := value }
  else if function = ADNumImagesCounter then { p with adNumImagesCounter := value }
  else if function = ADUVC_OperatingMode then { p with uvcOperatingMode := value }
  else if function = ADUVC_Framerate then { p with uvcFramerate := value }
  else p

/-- The libuvc calls the driver can issue, as mock hardware layer events. -/
inductive HWCall where
  | uvc_init
  | uvc_find_device (serialNumber : Int)
  | uvc_open
  | uvc_exit
  | uvc_unref_device
  | uvc_close
  | uvc_stop_streaming
deriving DecidableEq, Repr

/-- Which hardware resources are held when `connectToDeviceUVC` returns:
the device context from uvc_init, the device reference from
uvc_find_device, and the open handle from uvc_open. -/
structure ConnectResources where
  contextInit : Bool
  deviceRef : Bool
  handleOpen : Bool
deriving DecidableEq, Repr

/-- Result of the embedded `connectToDeviceUVC`: the returned Boolean, the
resources still held on return, and the trace of libuvc calls made. -/
structure ConnectOutcome where
  ok : Bool
  resources : ConnectResources
  calls : List HWCall
deriving DecidableEq, Repr

/-- connectToDeviceUVC (lines 79-107), against a mock hardware layer whose
three fallible steps succeed according to `initOk`, `findOk`, `openOk`.
The source performs uvc_init, uvc_find_device, uvc_open in order and
returns false at the first failure; none of the failure paths calls
uvc_exit, uvc_unref_device or uvc_close, so resources acquired by earlier
successful steps are still held when false is returned. -/
def connectToDeviceUVC (serialNumber : Int) (initOk findOk openOk : Bool) :
    ConnectOutcome :=
  if initOk = false then
    { ok := false
      resources := { contextInit := false, deviceRef := false, handleOpen := false }
      calls := [HWCall.uvc_init] }
  else if findOk = false then
    { ok := false
      resources := { contextInit := true, deviceRef := false, handleOpen := false }
      calls := [HWCall.uvc_init, HWCall.uvc_find_device serialNumber] }
  else if openOk = false then
    { ok := false
      resources := { contextInit := true, deviceRef := true, handleOpen := false }
      calls := [HWCall.uvc_init, HWCall.uvc_find_device serialNumber, HWCall.uvc_open] }
  else
    { ok := true
      resources := { contextInit := true, deviceRef := true, handleOpen := true }
      calls := [HWCall.uvc_init, HWCall.uvc_find_device serialNumber, HWCall.uvc_open] }

/-- C1: the claim says a connect that fails at device discovery or at
exclusive open releases the resources acquired by the earlier successful
steps before returning. The code does not: when discovery fails after a
successful context init, connect returns false with the context still
initialized and without ever calling uvc_exit; when open fails after a
successful discovery, the device reference is also still held and
uvc_unref_device is never called. -/
theorem connectToDeviceUVC_leaks_resources_on_partial_failure :
    (connectToDeviceUVC 1 true false true).ok = false ∧
    (connectToDeviceUVC 1 true false true).resources.contextInit = true ∧
    HWCall.uvc_exit ∉ (connectToDeviceUVC 1 true false true).calls ∧
    (connectToDeviceUVC 1 true true false).ok = false ∧
    (connectToDeviceUVC 1 true true false).resources.contextInit = true ∧
    (connectToDeviceUVC 1 true true false).resources.deviceRef = true ∧
    HWCall.uvc_exit ∉ (connectToDeviceUVC 1 true true false).calls ∧
    HWCall.uvc_unref_device ∉ (connectToDeviceUVC 1 true true false).calls := by
  decide

/-- The libuvc frame format code UVC_FRAME_FORMAT_MJPEG requested at
line 136. -/
def UVC_FRAME_FORMAT_MJPEG : Nat := 7

/-- The arguments of a uvc_get_stream_ctrl_format_size call: the stream
control structure the driver asks the hardware to satisfy. -/
structure StreamCtrlRequest where
  format : Nat
  width : Int
  height : Int
  fps : Int
deriving DecidableEq, Repr

/-- The stream-control request issued by acquireStart at line 136:
`uvc_get_stream_ctrl_format_size(pdeviceHandle, &deviceStreamCtrl,
UVC_FRAME_FORMAT_MJPEG, 640, 480, 30)`. All four request fields are
literal constants in the source; the parameter table (which holds the
configured ADUVC_Framerate) is not consulted. -/
def acquireStartRequest (_p : ParamTable) : StreamCtrlRequest :=
  { format := UVC_FRAME_FORMAT_MJPEG, width := 640, height := 480, fps := 30 }

/-- The observable steps acquireStart (lines 133-156) performs. -/
inductive StartEvent where
  | negotiate (r : StreamCtrlRequest)
  | setAcquireZero
  | resetImageCounter
  | startStreaming
  | runImageHandler
deriving DecidableEq, Repr

/-- Event trace of acquireStart (lines 133-156) given the outcomes of
negotiation (`negOk`, line 136) and stream start (`startOk`, line 145):
one negotiation request; on its failure ADAcquire is reset and the
function returns the error; otherwise the image counter is reset,
streaming is started (again resetting ADAcquire and returning on
failure), and on full success `moving` is set and imageHandlerThread is
invoked synchronously. -/
def acquireStartEvents (p : ParamTable) (negOk startOk : Bool) : List StartEvent :=
  StartEvent.negotiate (acquireStartRequest p) ::
    (if negOk = false then [StartEvent.setAcquireZero]
     else StartEvent.resetImageCounter :: StartEvent.startStreaming ::
       (if startOk = false then [StartEvent.setAcquireZero]
        else [StartEvent.runImageHandler]))

/-- Whether a StartEvent is a negotiation request. -/
def isNegotiate : StartEvent → Bool
  | StartEvent.negotiate _ => true
  | _ => false

/-- Observable actions of the driver control path, used to compare the
manual stop procedure with the acquisition timer expiry path. -/
inductive DriverAction where
  | clearMoving
  | hw (c : HWCall)
  | setParam (function : Nat) (value : Int)
  | paramCallbacks
  | sleepSec
deriving DecidableEq, Repr

/-- Action trace of acquireStop (lines 164-174): clears `moving`, calls
uvc_stop_streaming, sets ADStatus to idle and ADAcquire to 0, and pushes
parameter callbacks. -/
def acquireStopActions : List DriverAction :=
  [DriverAction.clearMoving,
   DriverAction.hw HWCall.uvc_stop_streaming,
   DriverAction.setParam ADStatus ADStatusIdle,
   DriverAction.setParam ADAcquire 0,
   DriverAction.paramCallbacks]

/-- Snapshot-mode session duration in seconds, from lines 222-223:
`int seconds = numFrames/framerate; seconds = seconds + 1;` (C integer
division on nonnegative operands, i.e. floor). -/
def snapshotSeconds (numFrames framerate : Nat) : Nat :=
  numFrames / framerate + 1

/-- Modelled from the spec words of section 4.4: session duration
`ceil(n / frameRate) + 1` seconds, written with the usual Nat ceiling
`(n + r - 1) / r`. Stated for comparison against `snapshotSeconds`, the
duration the source computes. -/
def specSnapshotDuration (n r : Nat) : Nat :=
  (n + r - 1) / r + 1

/-- Action trace of imageHandlerThread (lines 208-237) on the expiry path,
i.e. when no external stop arrives before the computed duration elapses:
single-shot mode (0) sleeps once; snapshot mode (1) runs its one-second
wait loop to the computed `seconds` count; then the function clears
`moving` and returns. No libuvc call and no parameter write occurs —
in particular acquireStop is never invoked from this function. Continuous
mode (2) has no expiry path (its loop exits only on external stop), so it
is not covered by this trace. -/
def imageHandlerExpiryActions (operatingMode numFrames framerate : Nat) :
    List DriverAction :=
  if operatingMode = 0 then
    [DriverAction.sleepSec, DriverAction.clearMoving]
  else if operatingMode = 1 then
    List.replicate (snapshotSeconds numFrames framerate) DriverAction.sleepSec
      ++ [DriverAction.clearMoving]
  else []

/-- Continuous-mode wait loop (lines 231-235): `while(moving == 1) sleep(1);`.
`continuousRunning sched k = true` means the loop is still executing at the
start of second `k`, where `sched t = true` says an external acquireStop
cleared `moving` during second `t`. The loop enters (second 0) with
`moving = 1` set at line 152, and does another iteration after second `k`
exactly when it was running and no stop arrived during that second. -/
def continuousRunning (sched : Nat → Bool) : Nat → Bool
  | 0 => true
  | k + 1 => continuousRunning sched k && !sched k

/-- Snapshot-mode wait loop (lines 224-228):
`while(moving == 1 && second_counter != seconds){ sleep(1); second_counter++; }`.
`snapshotRunning sched seconds k = true` means the loop body is entered
with `second_counter = k`: the previous iteration ran, no external stop
cleared `moving` during it, and the counter has not reached `seconds`. -/
def snapshotRunning (sched : Nat → Bool) (seconds : Nat) : Nat → Bool
  | 0 => decide (0 ≠ seconds)
  | k + 1 => snapshotRunning sched seconds k && !sched k && decide (k + 1 ≠ seconds)

/-- imageHandlerThread wait status (lines 208-237): whether the handler is
still inside its mode-dependent wait at the start of second `k`.
Single-shot mode (0) sleeps exactly one second; snapshot mode (1) runs its
loop up to `snapshotSeconds numFrames framerate` iterations; continuous
mode (2) loops until an external stop; any other mode value matches no
branch and the function returns immediately. -/
def imageHandlerRunning (operatingMode numFrames framerate : Nat)
    (sched : Nat → Bool) (k : Nat) : Bool :=
  if operatingMode = 0 then decide (k = 0)
  else if operatingMode = 1 then
    snapshotRunning sched (snapshotSeconds numFrames framerate) k
  else if operatingMode = 2 then continuousRunning sched k
  else false

/-- Whether acquireStart (lines 133-156) has returned to its caller within
the first `k` seconds. On a negotiation or stream-start failure it returns
at once with the error. On the success path it sets `moving = 1` and calls
imageHandlerThread() directly on the calling thread (line 153), so it has
returned by second `k` exactly when the handler's wait is no longer
running. -/
def acquireStartReturnedBy (negOk startOk : Bool)
    (operatingMode numFrames framerate : Nat) (sched : Nat → Bool)
    (k : Nat) : Bool :=
  if negOk = false then true
  else if startOk = false then true
  else !(imageHandlerRunning operatingMode numFrames framerate sched k)

/-- A raw frame handed to the frame callback by the hardware. -/
structure UVCFrame where
  width : Nat
  height : Nat
  timestamp : Nat
  payload : List Nat
deriving DecidableEq, Repr

/-- An areaDetector image buffer as the frame callback would have to
produce it: dimensions, data type, timestamp, unique (sequence) id and
payload. -/
structure NDArrayBuffer where
  width : Nat
  height : Nat
  dataType : Int
  timeStamp : Nat
  uniqueId : Nat
  payload : List Nat
deriving DecidableEq, Repr

/-- The observable steps of the frame callback. -/
inductive CBEvent where
  | lockDriver
  | readDataTypeParam
  | deliver (b : NDArrayBuffer)
deriving DecidableEq, Repr

/-- newFrameCallback (lines 185-198): the body locks the driver, reads the
NDDataType parameter and casts it, then ends. It allocates no NDArray,
copies none of the frame's fields or payload, and delivers nothing to the
consumer pipeline (no processCallbacksGenericPointer call), for every
incoming frame. -/
def newFrameCallback (_frame : UVCFrame) : List CBEvent :=
  [CBEvent.lockDriver, CBEvent.readDataTypeParam]

/-- The buffers a callback event trace delivers to the consumer. -/
def deliveredBuffers (evs : List CBEvent) : List NDArrayBuffer :=
  evs.foldr
    (fun e acc =>
      match e with
      | CBEvent.deliver b => b :: acc
      | _ => acc)
    []

/-- The dispatch steps writeInt32 (lines 247-279) can take after storing
the written value. -/
inductive WEvent where
  | store (function : Nat) (value : Int)
  | dispatchStart
  | dispatchStop
  | baseWrite
  | paramCallbacks
deriving DecidableEq, Repr

/-- Result of the embedded writeInt32: the status it returns, the ordered
trace of its steps, and the parameter table as of the store at line 256
(before any dispatched command mutates parameters further). -/
structure WriteOutcome where
  status : Int
  events : List WEvent
  paramsAfterStore : ParamTable
deriving DecidableEq, Repr

/-- writeInt32 (lines 247-279): reads `acquiring` from ADAcquire
(line 253), stores the written value with setIntegerParam (line 256),
then dispatches: for the ADAcquire function code, acquireStart when the
value is truthy and not already acquiring, acquireStop when the value is
zero and currently acquiring (lines 258-267); for other codes below
ADUVC_FIRST_PARAM, the base-class write (lines 268-272); finally pushes
parameter callbacks (line 273). The local `status` comes from the
parameter store, which succeeds, so the function reports asynSuccess on
every skipped dispatch. -/
def writeInt32 (p : ParamTable) (function : Nat) (value : Int) : WriteOutcome :=
  let acquiring : Bool := p.adAcquire != 0
  let pStored := setIntegerParam p function value
  let dispatch : List WEvent :=
    if function = ADAcquire then
      (if value ≠ 0 ∧ acquiring = false then [WEvent.dispatchStart] else []) ++
        (if value = 0 ∧ acquiring = true then [WEvent.dispatchStop] else [])
    else if function < ADUVC_FIRST_PARAM then [WEvent.baseWrite]
    else []
  { status := asynSuccess
    events := WEvent.store function value :: dispatch ++ [WEvent.paramCallbacks]
    paramsAfterStore := pStored }

/-- A parameter table in the streaming state: ADAcquire is 1 (the driver
is acquiring), snapshot configuration as in a 30-frame, 10 fps session. -/
def pStreaming : ParamTable :=
  { adAcquire := 1, adStatus := 1, adNumImages := 30
    adNumImagesCounter := 0, uvcOperatingMode := 1, uvcFramerate := 10 }

/-- A parameter table in the idle state: ADAcquire is 0 (no acquisition in
progress). -/
def pIdle : ParamTable :=
  { adAcquire := 0, adStatus := 0, adNumImages := 30
    adNumImagesCounter := 0, uvcOperatingMode := 1, uvcFramerate := 10 }

/-- A parameter table whose configured frame rate is 60 fps. -/
def pRate60 : ParamTable :=
  { adAcquire := 0, adStatus := 0, adNumImages := 30
    adNumImagesCounter := 0, uvcOperatingMode := 2, uvcFramerate := 60 }

/-- A concrete 640x480 raw frame with timestamp 5. -/
def frame640 : UVCFrame :=
  { width := 640, height := 480, timestamp := 5, payload := [1, 2, 3] }

/-- The continuous-mode wait loop never exits on its own: if no external
stop ever clears `moving`, the loop is still running after any number of
one-second iterations. -/
lemma continuousRunning_of_noStop (sched : Nat → Bool)
    (h : ∀ t, sched t = false) : ∀ k, continuousRunning sched k = true := by
  intro k
  induction k with
  | zero => rfl
  | succ k ih => simp [continuousRunning, ih, h k]

/-- C2 counterexample: the claim says the snapshot-mode session duration is
`ceil(n / r) + 1` seconds for every n, r. The source computes the duration
with C integer (floor) division, so at n = 31 frames and r = 10 fps the
code yields 4 seconds while the claimed formula yields 5. -/
theorem snapshotSeconds_not_spec_ceil :
    snapshotSeconds 31 10 = 4 ∧ specSnapshotDuration 31 10 = 5 ∧
    snapshotSeconds 31 10 ≠ specSnapshotDuration 31 10 := by
  decide

/-- C2 (amended): for every requested frame count n and frame rate r > 0,
the snapshot-mode session duration computed by the code is
`floor(n / r) + 1` seconds; this is at least n / r seconds
(r * duration ≥ n), never exceeds the spec's `ceil(n / r) + 1` and falls
short of it by at most one (they agree exactly when r divides n), and for
n = 30, r = 10 the duration is 4 seconds. -/
theorem snapshotSeconds_floor_slack_bounds (n r : Nat) (hr : 0 < r) :
    n ≤ r * snapshotSeconds n r ∧
    snapshotSeconds n r ≤ specSnapshotDuration n r ∧
    specSnapshotDuration n r ≤ snapshotSeconds n r + 1 ∧
    snapshotSeconds 30 10 = 4 := by
  refine ⟨?_, ?_, ?_, by decide⟩
  · have h1 : n % r < r := Nat.mod_lt n hr
    have h2 : r * (n / r) + n % r = n := Nat.div_add_mod n r
    calc n = r * (n / r) + n % r := h2.symm
      _ ≤ r * (n / r) + r := Nat.add_le_add_left (Nat.le_of_lt h1) _
      _ = r * (n / r + 1) := by ring
  · have h3 : n ≤ n + r - 1 := by omega
    exact Nat.add_le_add_right (Nat.div_le_div_right h3) 1
  · have h4 : n + r - 1 ≤ n + r := Nat.sub_le _ _
    have h5 : (n + r - 1) / r ≤ (n + r) / r := Nat.div_le_div_right h4
    have h6 : (n + r) / r = n / r + 1 := Nat.add_div_right n hr
    simp only [snapshotSeconds, specSnapshotDuration]
    omega

/-- Witness for the amended C2 theorem at n = 30, r = 10. -/
theorem snapshotSeconds_floor_slack_bounds_witness :
    30 ≤ 10 * snapshotSeconds 30 10 ∧
    snapshotSeconds 30 10 ≤ specSnapshotDuration 30 10 ∧
    specSnapshotDuration 30 10 ≤ snapshotSeconds 30 10 + 1 ∧
    snapshotSeconds 30 10 = 4 :=
  snapshotSeconds_floor_slack_bounds 30 10 (by decide)

/-- C3: the claim says that when the acquisition timer's computed duration
expires, the same stop procedure as a manual stop runs. In the source the
manual stop procedure (acquireStop) calls uvc_stop_streaming and resets the
ADStatus and ADAcquire parameters, but the imageHandlerThread expiry path —
single-shot wait elapsed (mode 0) or snapshot duration elapsed (mode 1,
here 30 frames at 10 fps) — performs none of those actions: it only sleeps,
clears the `moving` flag and returns, never invoking acquireStop. -/
theorem imageHandler_expiry_skips_stop_procedure :
    DriverAction.hw HWCall.uvc_stop_streaming ∈ acquireStopActions ∧
    DriverAction.setParam ADAcquire 0 ∈ acquireStopActions ∧
    DriverAction.setParam ADStatus ADStatusIdle ∈ acquireStopActions ∧
    DriverAction.hw HWCall.uvc_stop_streaming ∉ imageHandlerExpiryActions 0 30 10 ∧
    DriverAction.hw HWCall.uvc_stop_streaming ∉ imageHandlerExpiryActions 1 30 10 ∧
    DriverAction.setParam ADAcquire 0 ∉ imageHandlerExpiryActions 1 30 10 ∧
    DriverAction.setParam ADStatus ADStatusIdle ∉ imageHandlerExpiryActions 1 30 10 := by
  decide

/-- C4 counterexample: the claim says a start command issued while already
acquiring is rejected with a failure status. In the streaming state
(ADAcquire already 1), a write of 1 to ADAcquire completes with
asynSuccess — the success status, not a failure — while skipping the
dispatch to acquireStart. -/
theorem start_while_streaming_returns_success :
    (writeInt32 pStreaming ADAcquire 1).status = asynSuccess ∧
    WEvent.dispatchStart ∉ (writeInt32 pStreaming ADAcquire 1).events := by
  decide

/-- C4 (amended): a write of 1 to the acquire parameter while acquisition
is already in progress is silently skipped as an idempotent no-op: the
write returns the success status, acquireStart is not dispatched (no
second streaming session begins), the only steps taken are the parameter
store and the parameter callbacks, and the parameter table is unchanged. -/
theorem start_while_streaming_silently_ignored (p : ParamTable)
    (h : p.adAcquire = 1) :
    (writeInt32 p ADAcquire 1).status = asynSuccess ∧
    WEvent.dispatchStart ∉ (writeInt32 p ADAcquire 1).events ∧
    (writeInt32 p ADAcquire 1).events =
      [WEvent.store ADAcquire 1, WEvent.paramCallbacks] ∧
    (writeInt32 p ADAcquire 1).paramsAfterStore = p := by
  obtain ⟨a, s, ni, nc, om, fr⟩ := p
  simp only [ParamTable.mk.injEq] at h ⊢
  subst h
  refine ⟨rfl, ?_, ?_, ?_⟩ <;>
    simp [writeInt32, setIntegerParam, ADAcquire, ADStatus, ADNumImages,
      ADNumImagesCounter, ADUVC_OperatingMode, ADUVC_Framerate]

/-- Witness for the amended C4 theorem at the concrete streaming table. -/
theorem start_while_streaming_silently_ignored_witness :
    pStreaming.adAcquire = 1 ∧
    ((writeInt32 pStreaming ADAcquire 1).status = asynSuccess ∧
     WEvent.dispatchStart ∉ (writeInt32 pStreaming ADAcquire 1).events ∧
     (writeInt32 pStreaming ADAcquire 1).events =
       [WEvent.store ADAcquire 1, WEvent.paramCallbacks] ∧
     (writeInt32 pStreaming ADAcquire 1).paramsAfterStore = pStreaming) :=
  ⟨rfl, start_while_streaming_silently_ignored pStreaming rfl⟩

/-- C5: the claim says format negotiation requests the configured target
frame rate (the ADUVC_Framerate parameter set before start). With the
frame-rate parameter configured to 60 fps, the request acquireStart issues
still carries the hardcoded 30 fps (with MJPEG 640x480), so the configured
rate is ignored. The no-fallback half of the claim does hold: a failed
negotiation produces exactly one negotiation request followed by the
ADAcquire reset, and even a full start performs exactly one negotiation. -/
theorem acquireStart_request_ignores_configured_framerate :
    pRate60.uvcFramerate = 60 ∧
    (acquireStartRequest pRate60).format = UVC_FRAME_FORMAT_MJPEG ∧
    (acquireStartRequest pRate60).width = 640 ∧
    (acquireStartRequest pRate60).height = 480 ∧
    (acquireStartRequest pRate60).fps = 30 ∧
    (acquireStartRequest pRate60).fps ≠ pRate60.uvcFramerate ∧
    acquireStartEvents pRate60 false true =
      [StartEvent.negotiate (acquireStartRequest pRate60), StartEvent.setAcquireZero] ∧
    ((acquireStartEvents pRate60 false true).filter isNegotiate).length = 1 ∧
    ((acquireStartEvents pRate60 true true).filter isNegotiate).length = 1 := by
  decide

/-- C6: in continuous operating mode (2), for every number k of elapsed
one-second wait iterations, the acquisition timer loop is still running as
long as no external stop has cleared the `moving` flag: the session never
self-terminates absent an external stop, with no count or time ceiling. -/
theorem continuous_mode_never_self_terminates (numFrames framerate : Nat)
    (sched : Nat → Bool) (h : ∀ t, sched t = false) (k : Nat) :
    imageHandlerRunning 2 numFrames framerate sched k = true := by
  simpa [imageHandlerRunning] using continuousRunning_of_noStop sched h k

/-- Witness for C6: 100 simulated seconds with no stop call and the loop
is still running. -/
theorem continuous_mode_never_self_terminates_witness :
    imageHandlerRunning 2 30 10 (fun _ => false) 100 = true :=
  continuous_mode_never_self_terminates 30 10 (fun _ => false) (fun _ => rfl) 100

/-- C7: a stop command while acquisition is not in progress (ADAcquire
already 0) is an idempotent no-op: the write returns the success status,
acquireStop is not dispatched — so uvc_stop_streaming, which only the stop
procedure issues, is not invoked a second time — the only steps taken are
the parameter store and the parameter callbacks, and the parameter table
is unchanged. -/
theorem stop_while_idle_is_noop (p : ParamTable) (h : p.adAcquire = 0) :
    (writeInt32 p ADAcquire 0).status = asynSuccess ∧
    WEvent.dispatchStop ∉ (writeInt32 p ADAcquire 0).events ∧
    (writeInt32 p ADAcquire 0).events =
      [WEvent.store ADAcquire 0, WEvent.paramCallbacks] ∧
    (writeInt32 p ADAcquire 0).paramsAfterStore = p ∧
    DriverAction.hw HWCall.uvc_stop_streaming ∈ acquireStopActions := by
  obtain ⟨a, s, ni, nc, om, fr⟩ := p
  simp only at h
  subst h
  refine ⟨rfl, ?_, ?_, ?_, by decide⟩ <;>
    simp [writeInt32, setIntegerParam, ADAcquire, ADStatus, ADNumImages,
      ADNumImagesCounter, ADUVC_OperatingMode, ADUVC_Framerate]

/-- Witness for C7 at the concrete idle table. -/
theorem stop_while_idle_is_noop_witness :
    pIdle.adAcquire = 0 ∧
    ((writeInt32 pIdle ADAcquire 0).status = asynSuccess ∧
     WEvent.dispatchStop ∉ (writeInt32 pIdle ADAcquire 0).events ∧
     (writeInt32 pIdle ADAcquire 0).events =
       [WEvent.store ADAcquire 0, WEvent.paramCallbacks] ∧
     (writeInt32 pIdle ADAcquire 0).paramsAfterStore = pIdle ∧
     DriverAction.hw HWCall.uvc_stop_streaming ∈ acquireStopActions) :=
  ⟨rfl, stop_while_idle_is_noop pIdle rfl⟩

/-- C8: the claim says every produced image buffer preserves the raw
frame's width, height, data type and timestamp, with strictly increasing
sequence counters. The callback in the source produces no buffer at all:
for a concrete 640x480 frame with timestamp 5 the callback's delivered
buffer list is empty (the body only locks the driver and reads the
NDDataType parameter), so no buffer carrying the frame's geometry or
timestamp ever reaches the consumer. -/
theorem newFrameCallback_produces_no_buffer :
    frame640.width = 640 ∧ frame640.height = 480 ∧ frame640.timestamp = 5 ∧
    newFrameCallback frame640 = [CBEvent.lockDriver, CBEvent.readDataTypeParam] ∧
    deliveredBuffers (newFrameCallback frame640) = [] := by
  decide

/-- C9: on the success path (negotiation and stream start both succeed),
acquireStart runs imageHandlerThread synchronously and returns only when
the handler's wait ends; in continuous mode (2), as long as no external
agent clears the `moving` flag, acquireStart has not returned after any
number k of seconds — the start command blocks its calling thread for the
whole session. -/
theorem acquireStart_blocks_until_external_stop (numFrames framerate : Nat)
    (sched : Nat → Bool) (h : ∀ t, sched t = false) (k : Nat) :
    acquireStartReturnedBy true true 2 numFrames framerate sched k = false := by
  have hc := continuousRunning_of_noStop sched h k
  simp [acquireStartReturnedBy, imageHandlerRunning, hc]

/-- Witness for C9: after 100 seconds with no external stop, a continuous
mode acquireStart still has not returned. -/
theorem acquireStart_blocks_until_external_stop_witness :
    acquireStartReturnedBy true true 2 30 10 (fun _ => false) 100 = false :=
  acquireStart_blocks_until_external_stop 30 10 (fun _ => false) (fun _ => rfl) 100

/-- C10: for every function code, value and parameter-table state, the
first step writeInt32 takes is storing the written value (its event trace
begins with the store, so any dispatch comes after); the store into the
acquire parameter changes that entry to the written value and leaves all
other table entries unchanged; and for the two skipped dispatches — a
start write while already acquiring and a stop write while idle — the
trace is exactly the store followed by the parameter callbacks, leaving
the stored value in place. -/
theorem writeInt32_stores_value_before_dispatch (function : Nat)
    (value : Int) (p : ParamTable) :
    (writeInt32 p function value).events.head? =
      some (WEvent.store function value) ∧
    (setIntegerParam p ADAcquire value).adAcquire = value ∧
    (setIntegerParam p ADAcquire value).adStatus = p.adStatus ∧
    (setIntegerParam p ADAcquire value).adNumImages = p.adNumImages ∧
    (setIntegerParam p ADAcquire value).adNumImagesCounter = p.adNumImagesCounter ∧
    (setIntegerParam p ADAcquire value).uvcOperatingMode = p.uvcOperatingMode ∧
    (setIntegerParam p ADAcquire value).uvcFramerate = p.uvcFramerate ∧
    (writeInt32 pStreaming ADAcquire 1).events =
      [WEvent.store ADAcquire 1, WEvent.paramCallbacks] ∧
    (writeInt32 pStreaming ADAcquire 1).paramsAfterStore.adAcquire = 1 ∧
    (writeInt32 pIdle ADAcquire 0).events =
      [WEvent.store ADAcquire 0, WEvent.paramCallbacks] ∧
    (writeInt32 pIdle ADAcquire 0).paramsAfterStore.adAcquire = 0 := by
  refine ⟨rfl, rfl, rfl, rfl, rfl, rfl, rfl, by decide, by decide, by decide, by decide⟩
